import Mathlib

/-!
Verification of the diet-recommendation backend (`backend/app.py`).

The Python source is shallowly embedded: JSON values become the inductive
type `Value`, request records become association lists `List (String × Value)`,
pandas data frames become `Catalog` (a list of `Row`s plus a flag recording
whether the optional `Cluster` column is present), and floating-point numbers
are modelled by exact rationals `ℚ`.  Each definition carries a comment naming
the lines of `backend/app.py` it embeds.
-/

/-- A JSON value as the validator sees it: a string, a number, a boolean, or
JSON null.  Numbers are modelled by `ℚ`. -/
inductive Value where
  | str (s : String)
  | num (q : ℚ)
  | boolean (b : Bool)
  | null
deriving DecidableEq

/-- Abstraction of the structured error bodies produced by `validate_request`
(`backend/app.py` lines 363-413): each constructor corresponds to one of the
`return False, {...}, 400` branches, and `ok` to `return True, None, 200`. -/
inductive ValidationResult where
  | ok
  | noData
  | missingKeys (ks : List String)
  | unexpectedKeys (ks : List String)
  | invalidValue (field : String) (v : Value) (allowed : List String)
  | notANumber (field : String)
deriving DecidableEq

/-- The list `REQUIRED_KEYS`, `backend/app.py` lines 61-65. -/
def REQUIRED_KEYS : List String :=
  ["Age", "BMI", "Chronic_Disease", "Blood_Pressure_Systolic",
   "Blood_Sugar_Level", "Daily_Steps", "Exercise_Frequency",
   "Alcohol_Consumption", "Smoking_Habit", "Dietary_Habits"]

/-- The table `ALLOWED_VALUES`, `backend/app.py` lines 68-73, in dict insertion order
(the order the validation loop on lines 392-399 iterates in). -/
def ALLOWED_VALUES : List (String × List String) :=
  [("Chronic_Disease", ["None", "Diabetes", "Heart Disease", "Hypertension", "Obesity"]),
   ("Alcohol_Consumption", ["No", "Yes"]),
   ("Smoking_Habit", ["No", "Yes"]),
   ("Dietary_Habits", ["Regular", "Vegetarian", "Vegan", "Keto"])]

/-- The list `numeric_fields`, `backend/app.py` line 402. -/
def NUMERIC_FIELDS : List String :=
  ["Age", "BMI", "Blood_Pressure_Systolic", "Blood_Sugar_Level",
   "Daily_Steps", "Exercise_Frequency"]

/-- Value of a decimal-digit string read left to right. -/
def natOfDigits (cs : List Char) : Nat :=
  cs.foldl (fun n c => n * 10 + (c.toNat - '0'.toNat)) 0

/-- Strip leading and trailing whitespace from a character list (the
behaviour of `str.strip` / the whitespace tolerance of `float`). -/
def trimChars (cs : List Char) : List Char :=
  ((cs.dropWhile Char.isWhitespace).reverse.dropWhile Char.isWhitespace).reverse

/-- Lexicographic comparison of character lists by code point — the order
Python string comparison uses. -/
def lexLe : List Char → List Char → Bool
  | [], _ => true
  | _ :: _, [] => false
  | a :: as, b :: bs =>
    if a < b then true
    else if b < a then false
    else lexLe as bs

/-- Python string `<=`: code-point lexicographic order. -/
def strLe (a b : String) : Bool :=
  lexLe a.data b.data

/-- Decimal parser over a character list: optional sign, digits with an
optional fractional part (at least one digit overall), optional exponent.
This is the common numeric grammar accepted both by Python `float` and by
`pd.to_numeric` for finite values; a non-matching string yields `none`
(pandas: `NaN` under the coerce error policy; Python: `ValueError`). -/
def parseDecimalCore (cs : List Char) : Option ℚ :=
  let signAndRest : ℚ × List Char :=
    match cs with
    | '+' :: r => (1, r)
    | '-' :: r => (-1, r)
    | r => (1, r)
  let sgn := signAndRest.1
  let cs1 := signAndRest.2
  let ip := cs1.takeWhile Char.isDigit
  let cs2 := cs1.dropWhile Char.isDigit
  let fracAndRest : List Char × List Char :=
    match cs2 with
    | '.' :: r => (r.takeWhile Char.isDigit, r.dropWhile Char.isDigit)
    | r => ([], r)
  let fp := fracAndRest.1
  let cs3 := fracAndRest.2
  if ip.isEmpty && fp.isEmpty then none
  else
    let mantissa : ℚ := (natOfDigits ip : ℚ) + (natOfDigits fp : ℚ) / ((10 : ℚ) ^ fp.length)
    match cs3 with
    | [] => some (sgn * mantissa)
    | e :: r =>
      if e = 'e' ∨ e = 'E' then
        let esignAndRest : ℤ × List Char :=
          match r with
          | '+' :: t => (1, t)
          | '-' :: t => (-1, t)
          | t => (1, t)
        let ed := esignAndRest.2.takeWhile Char.isDigit
        let rest := esignAndRest.2.dropWhile Char.isDigit
        if ed.isEmpty ∨ !rest.isEmpty then none
        else some (sgn * mantissa * (10 : ℚ) ^ (esignAndRest.1 * (natOfDigits ed : ℤ)))
      else none

/-- Parse of one cell by `pd.to_numeric` with the coerce error policy
(`backend/app.py` line 138): surrounding whitespace is tolerated, a
non-numeric string becomes `none` (NaN).  Non-finite spellings such as
`"nan"` also map to `none`: in the source every NaN produced here is
immediately replaced by `0` via `fillna(0)` (line 141), so `none` is the
faithful observable value for them. -/
def to_numeric_cell (s : String) : Option ℚ :=
  parseDecimalCore (trimChars s.data)

/-- Acceptance test of Python `float(string)`: decimal literals, and the
non-finite spellings `nan` / `inf` / `infinity` (any case, optional sign),
with surrounding whitespace allowed. -/
def pyFloatStringOk (s : String) : Bool :=
  let t := trimChars s.data
  let core : List Char :=
    match t with
    | '+' :: r => r
    | '-' :: r => r
    | r => r
  let low := String.mk (core.map Char.toLower)
  if low = "nan" ∨ low = "inf" ∨ low = "infinity" then true
  else (parseDecimalCore t).isSome

/-- Whether `float(data[field])` succeeds (`backend/app.py` lines 405-407):
numbers and booleans always convert, strings convert when Python `float`
accepts them, `None` raises `TypeError`. -/
def py_float_ok : Value → Bool
  | .str s => pyFloatStringOk s
  | .num _ => true
  | .boolean _ => true
  | .null => false

/-- Python `dict` lookup `data[key]` on a literal record (first match;
dict keys are unique by construction). -/
def assocLookup (k : String) : List (String × Value) → Option Value
  | [] => none
  | (k2, v) :: rest => if k = k2 then some v else assocLookup k rest

/-- Embeds `data.keys()`. -/
def keysOf (record : List (String × Value)) : List String :=
  record.map Prod.fst

/-- Python `sorted` on a list of strings: ascending lexicographic order by
code point (`strLe`), which agrees with the linear order of `String`. -/
def sortStrings (l : List String) : List String :=
  List.insertionSort (fun a b => strLe a b = true) l

/-- Embeds `sorted(required_keys_set - received_keys)`, `backend/app.py`
lines 372-379. -/
def missing_keys (record : List (String × Value)) : List String :=
  sortStrings (REQUIRED_KEYS.filter (fun k => !(keysOf record).contains k))

/-- Embeds `sorted(received_keys - required_keys_set)`, `backend/app.py`
lines 384-387 (`received_keys` is a set, hence the dedup). -/
def extra_keys (record : List (String × Value)) : List String :=
  sortStrings ((keysOf record).dedup.filter (fun k => !REQUIRED_KEYS.contains k))

/-- Python `value not in allowed_list` for a categorical check: only a string
equal to a member of the allowed list passes (`backend/app.py` line 395). -/
def valueInList (v : Value) (allowed : List String) : Bool :=
  match v with
  | .str s => allowed.contains s
  | _ => false

/-- The loop of `backend/app.py` lines 392-399: first key of
`ALLOWED_VALUES` (in insertion order) that is present in the record with a
value outside its allowed list. -/
def first_invalid_categorical (record : List (String × Value)) :
    List (String × List String) → Option (String × Value × List String)
  | [] => none
  | (k, allowed) :: rest =>
    match assocLookup k record with
    | some v =>
      if valueInList v allowed then first_invalid_categorical record rest
      else some (k, v, allowed)
    | none => first_invalid_categorical record rest

/-- The loop of `backend/app.py` lines 403-411: first numeric field present
in the record whose value Python `float` rejects. -/
def first_non_numeric (record : List (String × Value)) : List String → Option String
  | [] => none
  | f :: rest =>
    match assocLookup f record with
    | some v => if py_float_ok v then first_non_numeric record rest else some f
    | none => first_non_numeric record rest

/-- The list `numeric_cols`, `backend/app.py` line 133. -/
def NUMERIC_COLS : List String :=
  ["Grams", "Calories", "Protein", "Fat", "Sat.Fat", "Fiber", "Carbs"]

/-- Embeds the call `.str.replace` of `backend/app.py` line 136, with pattern t,
replacement 0, and regex=False: every
occurrence of the character `t` in the cell becomes `0`. -/
def replace_t (s : String) : String :=
  String.mk (s.data.map (fun c => if c = 't' then '0' else c))

/-- Embeds the call `.str.replace` of `backend/app.py` line 137, with a comma as
pattern, an empty replacement, and regex=False: every
comma in the cell is removed. -/
def strip_commas (s : String) : String :=
  String.mk (s.data.filter (fun c => c ≠ ','))

/-- The per-cell effect of `backend/app.py` lines 136-141 on a string cell:
replace `t` by `0`, strip commas, coerce to a number, and fill a failed
parse with `0`. -/
def clean_cell (s : String) : ℚ :=
  (to_numeric_cell (strip_commas (replace_t s))).getD 0

/-- The column transformation of `backend/app.py` lines 134-141 for a numeric
column of string dtype, staged exactly as the source: line 136 (`t` → `0`),
line 137 (drop commas), line 138 (`pd.to_numeric` coercion),
line 141 (`fillna(0)`). -/
def clean_numeric_column (cells : List String) : List ℚ :=
  let s1 := cells.map replace_t
  let s2 := s1.map strip_commas
  let s3 := s2.map to_numeric_cell
  s3.map (fun o => o.getD 0)

/-- Whether a string column contains non-numeric text, the situation in which
the dtype guard of the source on line 135 fires (object dtype). -/
def hasNonNumericText (cells : List String) : Bool :=
  cells.any (fun c => (to_numeric_cell c).isNone)

/-- One catalog row.  Each field holds the value of the corresponding data
frame cell; `none` models a NaN cell or an absent column (both are filled
with `0`, or `""` for text, before they are read — `backend/app.py`
lines 192-201 and 217-227).  `cluster` holds the cell of the optional
`Cluster` column after the `pd.to_numeric` coercion of line 182 (`none` for
NaN or an unparseable label). -/
structure Row where
  food : Option String
  category : Option String
  protein : Option ℚ
  fat : Option ℚ
  carbs : Option ℚ
  calories : Option ℚ
  cluster : Option ℚ
deriving DecidableEq

/-- The food data frame: its rows plus whether the optional `Cluster` column
is present (the column test of `backend/app.py` line 180). -/
structure Catalog where
  hasClusterCol : Bool
  rows : List Row
deriving DecidableEq

/-- One projected result record (`backend/app.py` lines 215-236): the six
required fields, numerics filled with `0` and text with the empty string. -/
structure Item where
  Food : String
  Category : String
  Protein : ℚ
  Fat : ℚ
  Carbs : ℚ
  Calories : ℚ
deriving DecidableEq

/-- Return value of `get_cluster_recommendations`, `backend/app.py`
line 238. -/
structure RecoResult where
  profile_name : String
  recommendation_type : String
  recommended_foods : List Item
deriving DecidableEq

/-- The dict `CLUSTER_PROFILE`, `backend/app.py` lines 77-84. -/
def CLUSTER_PROFILE : List (ℤ × String) :=
  [(0, "Prediabetic, Active Profile"),
   (1, "Older, Active Diabetic Profile"),
   (2, "Active Diabetic with High Blood Pressure"),
   (3, "Low-Activity Diabetic with Very High Blood Sugar"),
   (4, "Active Walker with High Blood Pressure"),
   (5, "High BMI (Obese) with Diabetes")]

/-- The dict `CLUSTER_RECOMMENDATION_TYPE`, `backend/app.py` lines 88-95. -/
def CLUSTER_RECOMMENDATION_TYPE : List (ℤ × String) :=
  [(0, "Low-Carb Foods"),
   (1, "Low-Carb Foods"),
   (2, "Low-Fat Foods"),
   (3, "Low-Carb Foods"),
   (4, "Low-Fat Foods"),
   (5, "Balanced (Low-Calorie) Foods")]

/-- Python `dict.get(k, d)` on an integer-keyed literal dict. -/
def dict_getD (k : ℤ) (d : String) : List (ℤ × String) → String
  | [] => d
  | (k2, v) :: rest => if k = k2 then v else dict_getD k d rest

/-- Embeds the comparison of the Cluster column with `user_cluster` for one row
(`backend/app.py`
line 184): numeric equality; a NaN cluster cell compares unequal. -/
def cluster_matches (user_cluster : ℤ) (r : Row) : Bool :=
  match r.cluster with
  | some c => c = (user_cluster : ℚ)
  | none => false

/-- The rows the Cluster filter of `backend/app.py` line 184 keeps. -/
def cluster_filtered (user_cluster : ℤ) (cat : Catalog) : List Row :=
  cat.rows.filter (cluster_matches user_cluster)

/-- The candidate set of `backend/app.py` lines 176-189: the whole catalog
when there is no `Cluster` column; otherwise the rows whose coerced cluster
label equals `user_cluster`, falling back to the whole catalog when that
filter is empty (lines 187-189). -/
def candidate_rows (user_cluster : ℤ) (cat : Catalog) : List Row :=
  if cat.hasClusterCol then
    if cluster_filtered user_cluster cat = [] then cat.rows
    else cluster_filtered user_cluster cat
  else cat.rows

/-- Lines 191-201 of `backend/app.py` for one row: ensure the `Protein`,
`Fat` and `Calories` cells exist and are numeric, filling NaN (and an absent
column) with `0`. -/
def fill_numeric (r : Row) : Row :=
  { r with
    protein := some (r.protein.getD 0)
    fat := some (r.fat.getD 0)
    calories := some (r.calories.getD 0) }

/-- Embeds `score = (Protein*2) - (Fat*1.5) - (Calories/50)`, `backend/app.py`
lines 205-209, reading the filled columns. -/
def score (r : Row) : ℚ :=
  (r.protein.getD 0) * 2 - (r.fat.getD 0) * 1.5 - (r.calories.getD 0) / 50

/-- Embeds the descending sort by score of `backend/app.py`
line 212, as pandas `nargsort` computes it for a descending sort: the key
array is reversed, argsorted ascending, and the resulting indexer reversed
again.  The underlying `numpy` argsort is modelled by the stable ascending
`List.insertionSort` (exact for the argsort kinds that are stable, e.g. every
candidate list short enough that introsort runs its insertion-sort branch;
ties of the default `quicksort` kind on longer inputs are not specified by
the source — see the development notes on the stability claim). -/
def sort_values_desc (key : Row → ℚ) (rows : List Row) : List Row :=
  (List.insertionSort (fun a b => key a ≤ key b) rows.reverse).reverse

/-- Projection of one surviving row to the six required fields,
`backend/app.py` lines 215-236. -/
def project_row (r : Row) : Item :=
  { Food := r.food.getD ""
    Category := r.category.getD ""
    Protein := r.protein.getD 0
    Fat := r.fat.getD 0
    Carbs := r.carbs.getD 0
    Calories := r.calories.getD 0 }

/-- Embeds `CLUSTER_PROFILE.get(user_cluster, f"Cluster {user_cluster}")`,
`backend/app.py` line 168. -/
def profile_name_of (user_cluster : ℤ) : String :=
  dict_getD user_cluster ("Cluster " ++ toString user_cluster) CLUSTER_PROFILE

/-- Embeds `CLUSTER_RECOMMENDATION_TYPE.get(user_cluster, "Balanced (Low-Calorie)
Foods")`, `backend/app.py` lines 171-174. -/
def recommendation_type_of (user_cluster : ℤ) : String :=
  dict_getD user_cluster "Balanced (Low-Calorie) Foods" CLUSTER_RECOMMENDATION_TYPE

/-- Embeds `get_cluster_recommendations`, `backend/app.py` lines 153-238, with the
global `food_df` passed explicitly. -/
def get_cluster_recommendations (user_cluster : ℤ) (food_df : Catalog) : RecoResult :=
  let profile_name := profile_name_of user_cluster
  let recommendation_type := recommendation_type_of user_cluster
  let working := (candidate_rows user_cluster food_df).map fill_numeric
  let recommended := (sort_values_desc score working).take 10
  { profile_name := profile_name
    recommendation_type := recommendation_type
    recommended_foods := recommended.map project_row }

/-- The module-level mutable state read by `get_cluster_recommendations`:
the global `food_df` (`backend/app.py` line 101). -/
structure AppState where
  food_df : Catalog
deriving DecidableEq

/-- Runs `get_cluster_recommendations` as a state transformer on the module
globals: line 177 copies `food_df` into the local `working_df`
(`pd.DataFrame.copy` is a deep copy), every subsequent assignment of
lines 182-236 targets the local copy only, and the function returns with the
globals as they were. -/
def get_cluster_recommendations_step (user_cluster : ℤ) (st : AppState) :
    RecoResult × AppState :=
  let working_df := st.food_df
  (get_cluster_recommendations user_cluster working_df, st)

/-- First item of the two-item ranking scenario of the specification. -/
def broccoliRow : Row :=
  { food := some "Broccoli", category := some "Vegetables", protein := some 2.8,
    fat := some 0.4, carbs := some 6.6, calories := some 34.0, cluster := none }

/-- Second item of the two-item ranking scenario of the specification. -/
def baconRow : Row :=
  { food := some "Bacon", category := some "Meat", protein := some 12,
    fat := some 40, carbs := some 0, calories := some 420, cluster := none }

/-- The scenario catalog: two items, no `Cluster` column. -/
def scenarioCatalog : Catalog :=
  { hasClusterCol := false, rows := [broccoliRow, baconRow] }

/-- A catalog that carries a `Cluster` column whose labels are `0` and `1`
only (so a request for cluster `9` matches nothing). -/
def clusteredCatalog : Catalog :=
  { hasClusterCol := true,
    rows := [{ broccoliRow with cluster := some 0 }, { baconRow with cluster := some 1 }] }

/-- A request record carrying exactly the ten required keys, with the four
categorical fields passed as strings. -/
def mkUserRecord (age bmi : Value) (cd : String) (bps bsl ds ef : Value)
    (ac sh dh : String) : List (String × Value) :=
  [("Age", age), ("BMI", bmi), ("Chronic_Disease", Value.str cd),
   ("Blood_Pressure_Systolic", bps), ("Blood_Sugar_Level", bsl),
   ("Daily_Steps", ds), ("Exercise_Frequency", ef),
   ("Alcohol_Consumption", Value.str ac), ("Smoking_Habit", Value.str sh),
   ("Dietary_Habits", Value.str dh)]

/-- Embeds `validate_request`, `backend/app.py` lines 363-413, with the same check
order as the source: empty input, then missing keys, then extra keys, then
categorical values, then numeric coercion, short-circuiting at the first
failure. -/
def validate_request (record : List (String × Value)) : ValidationResult :=
  if record = [] then .noData
  else if missing_keys record ≠ [] then .missingKeys (missing_keys record)
  else if extra_keys record ≠ [] then .unexpectedKeys (extra_keys record)
  else
    match first_invalid_categorical record ALLOWED_VALUES with
    | some (k, v, allowed) => .invalidValue k v allowed
    | none =>
      match first_non_numeric record NUMERIC_FIELDS with
      | some f => .notANumber f
      | none => .ok

/-!
Helper lemmas: the code-point order `lexLe` used by the embedding of Python
`sorted` agrees with the Mathlib linear order on `String`, and `sortStrings`
is a sorted permutation.
-/

theorem lexLe_eq_true_iff (as : List Char) : ∀ bs, lexLe as bs = true ↔ ¬ (bs < as) := by
  induction as with
  | nil =>
    intro bs
    constructor
    · intro _ h
      cases h
    · intro _
      rfl
  | cons a as ih =>
    intro bs
    cases bs with
    | nil =>
      constructor
      · intro h
        exact absurd h (by simp [lexLe])
      · intro h
        exact absurd List.Lex.nil h
    | cons b bs =>
      by_cases hab : a < b
      · simp only [lexLe, if_pos hab]
        constructor
        · intro _ h
          cases h with
          | cons h3 => exact absurd hab (Char.lt_irrefl _)
          | rel hba => exact Char.lt_asymm hab hba
        · intro _
          trivial
      · by_cases hba : b < a
        · simp only [lexLe, if_neg hab, if_pos hba]
          constructor
          · intro h
            exact absurd h (by simp)
          · intro h
            exact absurd (List.Lex.rel hba) h
        · have heq : a = b :=
            Char.ext (UInt32.le_antisymm (Char.not_lt.mp hba) (Char.not_lt.mp hab))
          subst heq
          simp only [lexLe, if_neg hab]
          rw [ih bs]
          constructor
          · intro h hcons
            cases hcons with
            | cons h3 => exact h h3
            | rel h1 => exact absurd h1 (Char.lt_irrefl _)
          · intro h hlt
            exact h (List.Lex.cons hlt)

theorem strLe_eq_true_iff (a b : String) : strLe a b = true ↔ a ≤ b := by
  rw [strLe, lexLe_eq_true_iff]
  exact (not_congr String.lt_iff_toList_lt).symm

theorem sortStrings_perm (l : List String) : List.Perm (sortStrings l) l :=
  List.perm_insertionSort _ l

theorem mem_sortStrings {k : String} {l : List String} : k ∈ sortStrings l ↔ k ∈ l :=
  List.mem_insertionSort _

theorem sortStrings_sorted (l : List String) : (sortStrings l).Sorted (fun a b => a ≤ b) := by
  have htot : IsTotal String (fun a b => strLe a b = true) := by
    constructor
    intro a b
    rcases le_total a b with h | h
    · exact Or.inl ((strLe_eq_true_iff a b).mpr h)
    · exact Or.inr ((strLe_eq_true_iff b a).mpr h)
  have htr : IsTrans String (fun a b => strLe a b = true) := by
    constructor
    intro a b c hab hbc
    exact (strLe_eq_true_iff a c).mpr
      (le_trans ((strLe_eq_true_iff a b).mp hab) ((strLe_eq_true_iff b c).mp hbc))
  have hs := @List.sorted_insertionSort String (fun a b => strLe a b = true) _ htot htr l
  exact hs.imp (fun h => (strLe_eq_true_iff _ _).mp h)

theorem sortStrings_eq_nil_iff {l : List String} : sortStrings l = [] ↔ l = [] := by
  constructor
  · intro h
    have hp := sortStrings_perm l
    rw [h] at hp
    exact hp.symm.eq_nil
  · intro h
    subst h
    rfl

theorem mem_missing_keys {record : List (String × Value)} {k : String} :
    k ∈ missing_keys record ↔ k ∈ REQUIRED_KEYS ∧ k ∉ keysOf record := by
  rw [missing_keys, mem_sortStrings, List.mem_filter]
  simp

theorem mem_extra_keys {record : List (String × Value)} {k : String} :
    k ∈ extra_keys record ↔ k ∈ keysOf record ∧ k ∉ REQUIRED_KEYS := by
  rw [extra_keys, mem_sortStrings, List.mem_filter]
  simp

theorem required_keys_nodup : REQUIRED_KEYS.Nodup := by decide

theorem missing_keys_nodup (record : List (String × Value)) : (missing_keys record).Nodup := by
  have h1 : (REQUIRED_KEYS.filter (fun k => !(keysOf record).contains k)).Nodup :=
    required_keys_nodup.filter _
  exact ((sortStrings_perm _).nodup_iff).mpr h1

theorem cluster_matches_eq_true_iff (id : ℤ) (r : Row) :
    cluster_matches id r = true ↔ r.cluster = some (id : ℚ) := by
  rcases hr : r.cluster with _ | c
  · simp [cluster_matches, hr]
  · simp [cluster_matches, hr]

theorem candidate_rows_ne_nil (id : ℤ) (cat : Catalog) (h : cat.rows ≠ []) :
    candidate_rows id cat ≠ [] := by
  rw [candidate_rows]
  split_ifs with h1 h2
  · exact h
  · exact h2
  · exact h

theorem sort_values_desc_length (key : Row → ℚ) (rows : List Row) :
    (sort_values_desc key rows).length = rows.length := by
  simp [sort_values_desc, List.length_insertionSort]

/-- Claim C1: the engine scores every candidate by
`Protein*2 - Fat*1.5 - Calories/50`, with a missing or unparseable
`Protein`, `Fat` or `Calories` cell contributing `0`; on the two-item
scenario catalog (no `Cluster` column, cluster id 2) the scores are
`4.32` for Broccoli and `-44.4` for Bacon, so the result lists Broccoli
before Bacon. -/
theorem score_formula_and_scenario_order :
    (∀ r : Row,
      score r = (r.protein.getD 0) * 2 - (r.fat.getD 0) * 1.5 - (r.calories.getD 0) / 50) ∧
    score broccoliRow = 108 / 25 ∧
    score baconRow = -222 / 5 ∧
    (get_cluster_recommendations 2 scenarioCatalog).recommended_foods =
      [{ Food := "Broccoli", Category := "Vegetables", Protein := 2.8, Fat := 0.4,
         Carbs := 6.6, Calories := 34.0 },
       { Food := "Bacon", Category := "Meat", Protein := 12, Fat := 40,
         Carbs := 0, Calories := 420 }] := by
  refine ⟨fun r => rfl, by norm_num [score, broccoliRow], by norm_num [score, baconRow], ?_⟩
  norm_num [get_cluster_recommendations, candidate_rows, cluster_filtered, scenarioCatalog,
    broccoliRow, baconRow, fill_numeric, sort_values_desc, List.insertionSort,
    List.orderedInsert, score, project_row]

/-- Claim C3: cluster policy resolution is total over the integers — each id
in 0..5 resolves to its table entry (in particular id 5 resolves to
"High BMI (Obese) with Diabetes" / "Balanced (Low-Calorie) Foods"), and any
id outside 0..5, negative ids included, falls back to the synthesized
profile name `Cluster {id}` with recommendation type
"Balanced (Low-Calorie) Foods". -/
theorem cluster_policy_total_with_fallback :
    (profile_name_of 0 = "Prediabetic, Active Profile" ∧
     profile_name_of 1 = "Older, Active Diabetic Profile" ∧
     profile_name_of 2 = "Active Diabetic with High Blood Pressure" ∧
     profile_name_of 3 = "Low-Activity Diabetic with Very High Blood Sugar" ∧
     profile_name_of 4 = "Active Walker with High Blood Pressure" ∧
     profile_name_of 5 = "High BMI (Obese) with Diabetes" ∧
     recommendation_type_of 0 = "Low-Carb Foods" ∧
     recommendation_type_of 1 = "Low-Carb Foods" ∧
     recommendation_type_of 2 = "Low-Fat Foods" ∧
     recommendation_type_of 3 = "Low-Carb Foods" ∧
     recommendation_type_of 4 = "Low-Fat Foods" ∧
     recommendation_type_of 5 = "Balanced (Low-Calorie) Foods") ∧
    (∀ id : ℤ, id < 0 ∨ 5 < id →
      profile_name_of id = "Cluster " ++ toString id ∧
      recommendation_type_of id = "Balanced (Low-Calorie) Foods") := by
  constructor
  · exact ⟨by decide, by decide, by decide, by decide, by decide, by decide,
      by decide, by decide, by decide, by decide, by decide, by decide⟩
  · intro id h
    have h0 : id ≠ 0 := by omega
    have h1 : id ≠ 1 := by omega
    have h2 : id ≠ 2 := by omega
    have h3 : id ≠ 3 := by omega
    have h4 : id ≠ 4 := by omega
    have h5 : id ≠ 5 := by omega
    constructor
    · simp [profile_name_of, dict_getD, CLUSTER_PROFILE, h0, h1, h2, h3, h4, h5]
    · simp [recommendation_type_of, dict_getD, CLUSTER_RECOMMENDATION_TYPE,
        h0, h1, h2, h3, h4, h5]

/-- Witness for C3: the fallback branch evaluated at the concrete out-of-range
cluster id -7. -/
theorem cluster_policy_total_with_fallback_witness :
    ((-7 : ℤ) < 0 ∨ 5 < (-7 : ℤ)) ∧
    profile_name_of (-7) = "Cluster " ++ toString (-7 : ℤ) ∧
    recommendation_type_of (-7) = "Balanced (Low-Calorie) Foods" :=
  ⟨Or.inl (by norm_num),
   cluster_policy_total_with_fallback.2 (-7) (Or.inl (by norm_num))⟩

/-- Claim C4: when the catalog has a `Cluster` column, the engine keeps the
rows whose numerically coerced label equals the requested id, and falls back
to the whole catalog when that filter is empty, so a non-empty catalog never
yields an empty candidate set. -/
theorem cluster_filter_and_fallback (id : ℤ) (cat : Catalog)
    (h : cat.hasClusterCol = true) :
    (∀ r, r ∈ cluster_filtered id cat ↔ r ∈ cat.rows ∧ r.cluster = some (id : ℚ)) ∧
    (cluster_filtered id cat ≠ [] → candidate_rows id cat = cluster_filtered id cat) ∧
    (cluster_filtered id cat = [] → candidate_rows id cat = cat.rows) ∧
    (cat.rows ≠ [] → candidate_rows id cat ≠ []) := by
  refine ⟨?_, ?_, ?_, candidate_rows_ne_nil id cat⟩
  · intro r
    rw [cluster_filtered, List.mem_filter, cluster_matches_eq_true_iff]
  · intro hne
    rw [candidate_rows, if_pos h, if_neg hne]
  · intro hnil
    rw [candidate_rows, if_pos h, if_pos hnil]

/-- Witness for C4: the catalog whose `Cluster` labels are 0 and 1 only,
queried for cluster 9 — the filter is empty and the engine falls back to the
whole catalog. -/
theorem cluster_filter_and_fallback_witness :
    clusteredCatalog.hasClusterCol = true ∧
    cluster_filtered 9 clusteredCatalog = [] ∧
    candidate_rows 9 clusteredCatalog = clusteredCatalog.rows := by
  have hf : cluster_filtered 9 clusteredCatalog = [] := by
    simp [cluster_filtered, cluster_matches, clusteredCatalog, broccoliRow, baconRow]
  exact ⟨rfl, hf, (cluster_filter_and_fallback 9 clusteredCatalog rfl).2.2.1 hf⟩

/-- Claim C5: the result always holds `min 10 (candidate set size)` items, is
non-empty whenever the catalog is non-empty, and (being a total function of
the catalog) never fails. -/
theorem recommendation_length_and_nonempty (id : ℤ) (cat : Catalog) :
    (get_cluster_recommendations id cat).recommended_foods.length
        = min 10 (candidate_rows id cat).length ∧
    (cat.rows ≠ [] → (get_cluster_recommendations id cat).recommended_foods ≠ []) := by
  have hlen : (get_cluster_recommendations id cat).recommended_foods.length
      = min 10 (candidate_rows id cat).length := by
    simp [get_cluster_recommendations, sort_values_desc_length]
  refine ⟨hlen, ?_⟩
  intro hrows
  have hc : candidate_rows id cat ≠ [] := candidate_rows_ne_nil id cat hrows
  have hpos : 0 < (candidate_rows id cat).length := List.length_pos.mpr hc
  have hmin : 0 < min 10 (candidate_rows id cat).length := by omega
  rw [← hlen] at hmin
  intro hnil
  rw [hnil] at hmin
  simp at hmin

/-- Witness for C5: the non-empty two-item scenario catalog produces a
non-empty recommendation list. -/
theorem recommendation_length_and_nonempty_witness :
    scenarioCatalog.rows ≠ [] ∧
    (get_cluster_recommendations 7 scenarioCatalog).recommended_foods ≠ [] :=
  ⟨by decide, (recommendation_length_and_nonempty 7 scenarioCatalog).2 (by decide)⟩

/-- Claim C9: running the engine leaves the loaded catalog untouched — the
state-transformer form returns the module state unchanged, and its result is
exactly the pure function of the catalog value (the engine works on the copy
taken on line 177 of `backend/app.py`). -/
theorem engine_preserves_catalog :
    ∀ (id : ℤ) (st : AppState),
      (get_cluster_recommendations_step id st).2 = st ∧
      (get_cluster_recommendations_step id st).2.food_df = st.food_df ∧
      (get_cluster_recommendations_step id st).1
          = get_cluster_recommendations id st.food_df :=
  fun _ _ => ⟨rfl, rfl, rfl⟩

/-- Counterexample to claim C6 as stated: the non-empty record holding only
the unknown key `Hobby` has a key outside the required set, yet
`validate_request` reports the missing keys, not the unexpected ones,
because the missing-keys check on lines 376-381 runs before the extra-keys
check on lines 384-389. -/
theorem unexpected_keys_claim_counterexample :
    validate_request [("Hobby", Value.str "reading")] =
      ValidationResult.missingKeys
        ["Age", "Alcohol_Consumption", "BMI", "Blood_Pressure_Systolic",
         "Blood_Sugar_Level", "Chronic_Disease", "Daily_Steps", "Dietary_Habits",
         "Exercise_Frequency", "Smoking_Habit"] ∧
    validate_request [("Hobby", Value.str "reading")] ≠
      ValidationResult.unexpectedKeys ["Hobby"] := by
  constructor
  · decide
  · decide

theorem extra_keys_nodup (record : List (String × Value)) : (extra_keys record).Nodup := by
  have h1 : ((keysOf record).dedup.filter (fun k => !REQUIRED_KEYS.contains k)).Nodup :=
    ((keysOf record).nodup_dedup).filter _
  exact ((sortStrings_perm _).nodup_iff).mpr h1

/-- Claim C6 (amended): for every non-empty record that contains all 10
required field names together with at least one key outside them,
`validate_request` returns the unexpected-keys rejection listing exactly
the extra keys in sorted order; when required keys are simultaneously
missing, the missing-keys rejection is reported instead, because the
missing-keys check runs first. -/
theorem validate_extra_keys_when_all_required_present
    (record : List (String × Value))
    (hne : record ≠ [])
    (hall : ∀ k ∈ REQUIRED_KEYS, k ∈ keysOf record)
    (hex : ∃ k ∈ keysOf record, k ∉ REQUIRED_KEYS) :
    validate_request record = ValidationResult.unexpectedKeys (extra_keys record) ∧
    (∀ k, k ∈ extra_keys record ↔ k ∈ keysOf record ∧ k ∉ REQUIRED_KEYS) ∧
    (extra_keys record).Sorted (fun a b => a ≤ b) ∧
    (extra_keys record).Nodup := by
  have hmnil : missing_keys record = [] := by
    rw [missing_keys, sortStrings_eq_nil_iff, List.filter_eq_nil_iff]
    intro k hk
    simp [hall k hk]
  obtain ⟨k0, hk0, hk0n⟩ := hex
  have hmem : k0 ∈ extra_keys record := mem_extra_keys.mpr ⟨hk0, hk0n⟩
  have henil : extra_keys record ≠ [] := List.ne_nil_of_mem hmem
  refine ⟨?_, fun k => mem_extra_keys, sortStrings_sorted _, extra_keys_nodup record⟩
  rw [validate_request, if_neg hne, if_neg (by simp [hmnil]), if_pos henil]

/-- Witness for the amended C6: a complete record with the one extra key
`Hobby` is rejected with exactly `["Hobby"]`. -/
theorem validate_extra_keys_when_all_required_present_witness :
    (∀ k ∈ REQUIRED_KEYS,
      k ∈ keysOf (mkUserRecord (Value.num 44) (Value.num 29) "Obesity" (Value.num 120)
        (Value.num 90) (Value.num 5000) (Value.num 2) "No" "No" "Keto"
        ++ [("Hobby", Value.str "reading")])) ∧
    validate_request (mkUserRecord (Value.num 44) (Value.num 29) "Obesity" (Value.num 120)
        (Value.num 90) (Value.num 5000) (Value.num 2) "No" "No" "Keto"
        ++ [("Hobby", Value.str "reading")])
      = ValidationResult.unexpectedKeys ["Hobby"] := by
  refine ⟨by decide, ?_⟩
  have h := (validate_extra_keys_when_all_required_present
    (mkUserRecord (Value.num 44) (Value.num 29) "Obesity" (Value.num 120)
      (Value.num 90) (Value.num 5000) (Value.num 2) "No" "No" "Keto"
      ++ [("Hobby", Value.str "reading")])
    (by decide) (by decide) ⟨"Hobby", by decide, by decide⟩).1
  exact h.trans (by decide)

/-- Claim C7: every non-empty record missing at least one required key is
rejected with the missing-keys reason, whose payload lists exactly the
missing required keys, without duplicates, in sorted order. -/
theorem validate_missing_keys_sorted_exact
    (record : List (String × Value))
    (hne : record ≠ [])
    (hmiss : ∃ k ∈ REQUIRED_KEYS, k ∉ keysOf record) :
    validate_request record = ValidationResult.missingKeys (missing_keys record) ∧
    (∀ k, k ∈ missing_keys record ↔ k ∈ REQUIRED_KEYS ∧ k ∉ keysOf record) ∧
    (missing_keys record).Sorted (fun a b => a ≤ b) ∧
    (missing_keys record).Nodup := by
  obtain ⟨k0, hk0r, hk0n⟩ := hmiss
  have hmem : k0 ∈ missing_keys record := mem_missing_keys.mpr ⟨hk0r, hk0n⟩
  have hnil : missing_keys record ≠ [] := List.ne_nil_of_mem hmem
  refine ⟨?_, fun k => mem_missing_keys, sortStrings_sorted _, missing_keys_nodup record⟩
  rw [validate_request, if_neg hne, if_pos hnil]

/-- Witness for C7: the record holding only `Age` is rejected with the other
nine required keys, lexicographically sorted. -/
theorem validate_missing_keys_sorted_exact_witness :
    ([("Age", Value.num 1)] ≠ ([] : List (String × Value))) ∧
    validate_request [("Age", Value.num 1)] =
      ValidationResult.missingKeys
        ["Alcohol_Consumption", "BMI", "Blood_Pressure_Systolic",
         "Blood_Sugar_Level", "Chronic_Disease", "Daily_Steps", "Dietary_Habits",
         "Exercise_Frequency", "Smoking_Habit"] := by
  refine ⟨by decide, ?_⟩
  have h := (validate_missing_keys_sorted_exact [("Age", Value.num 1)]
    (by decide) ⟨"BMI", by decide, by decide⟩).1
  exact h.trans (by decide)

/-- Claim C8: on a string-dtype numeric column the staged cleaning of
lines 134-141 equals the per-cell pipeline — replace the character `t` by
`0`, strip commas, parse as a number, turn a failed parse into `0` — and it
never drops a row; concretely, the trace marker `t` becomes `0`, the
thousands-separated `1,250` becomes `1250`, and the unparseable `abc`
becomes `0`. -/
theorem numeric_column_cleaning (cells : List String)
    (h : hasNonNumericText cells = true) :
    clean_numeric_column cells = cells.map clean_cell ∧
    (clean_numeric_column cells).length = cells.length ∧
    clean_cell "t" = 0 ∧
    clean_cell "1,250" = 1250 ∧
    clean_cell "abc" = 0 := by
  refine ⟨?_, ?_, ?_, ?_, ?_⟩
  · simp [clean_numeric_column, clean_cell, List.map_map, Function.comp]
  · simp [clean_numeric_column]
  · simp +decide [clean_cell, to_numeric_cell, strip_commas, replace_t, trimChars,
      parseDecimalCore, natOfDigits, List.takeWhile, List.dropWhile]
  · simp +decide [clean_cell, to_numeric_cell, strip_commas, replace_t, trimChars,
      parseDecimalCore, natOfDigits, List.takeWhile, List.dropWhile]
  · simp +decide [clean_cell, to_numeric_cell, strip_commas, replace_t, trimChars,
      parseDecimalCore, natOfDigits, List.takeWhile, List.dropWhile]

/-- Witness for C8: the column `["t", "1,250", "abc", "2.5"]` contains
non-numeric text, and its staged cleaning is the per-cell pipeline. -/
theorem numeric_column_cleaning_witness :
    hasNonNumericText ["t", "1,250", "abc", "2.5"] = true ∧
    clean_numeric_column ["t", "1,250", "abc", "2.5"] =
      (["t", "1,250", "abc", "2.5"] : List String).map clean_cell :=
  ⟨by decide, (numeric_column_cleaning ["t", "1,250", "abc", "2.5"] (by decide)).1⟩

/-- Claim C10: the numeric check of lines 401-411 is Python float
conversion, which accepts the non-finite spellings nan, inf and -inf; a
record with exactly the required keys, valid categorical values, and
numeric fields that float conversion accepts — non-finite strings
included — therefore validates as Ok rather than as a not-a-number
rejection. -/
theorem nonfinite_numeric_strings_validate_ok :
    py_float_ok (Value.str "nan") = true ∧
    py_float_ok (Value.str "inf") = true ∧
    py_float_ok (Value.str "-inf") = true ∧
    ∀ (cd ac sh dh : String) (age bmi bps bsl ds ef : Value),
      cd ∈ ["None", "Diabetes", "Heart Disease", "Hypertension", "Obesity"] →
      ac ∈ ["No", "Yes"] →
      sh ∈ ["No", "Yes"] →
      dh ∈ ["Regular", "Vegetarian", "Vegan", "Keto"] →
      py_float_ok age = true → py_float_ok bmi = true → py_float_ok bps = true →
      py_float_ok bsl = true → py_float_ok ds = true → py_float_ok ef = true →
      validate_request (mkUserRecord age bmi cd bps bsl ds ef ac sh dh)
          = ValidationResult.ok := by
  refine ⟨rfl, rfl, rfl, ?_⟩
  intro cd ac sh dh age bmi bps bsl ds ef hcd hac hsh hdh h1 h2 h3 h4 h5 h6
  have hkeys : keysOf (mkUserRecord age bmi cd bps bsl ds ef ac sh dh) =
      ["Age", "BMI", "Chronic_Disease", "Blood_Pressure_Systolic",
       "Blood_Sugar_Level", "Daily_Steps", "Exercise_Frequency",
       "Alcohol_Consumption", "Smoking_Habit", "Dietary_Habits"] := rfl
  have hne : mkUserRecord age bmi cd bps bsl ds ef ac sh dh ≠ [] := by
    simp [mkUserRecord]
  have hmiss : missing_keys (mkUserRecord age bmi cd bps bsl ds ef ac sh dh) = [] := by
    rw [missing_keys, hkeys]
    decide
  have hextra : extra_keys (mkUserRecord age bmi cd bps bsl ds ef ac sh dh) = [] := by
    rw [extra_keys, hkeys]
    decide
  have hcat : first_invalid_categorical (mkUserRecord age bmi cd bps bsl ds ef ac sh dh)
      ALLOWED_VALUES = none := by
    have l1 : assocLookup "Chronic_Disease" (mkUserRecord age bmi cd bps bsl ds ef ac sh dh)
        = some (Value.str cd) := rfl
    have l2 : assocLookup "Alcohol_Consumption" (mkUserRecord age bmi cd bps bsl ds ef ac sh dh)
        = some (Value.str ac) := rfl
    have l3 : assocLookup "Smoking_Habit" (mkUserRecord age bmi cd bps bsl ds ef ac sh dh)
        = some (Value.str sh) := rfl
    have l4 : assocLookup "Dietary_Habits" (mkUserRecord age bmi cd bps bsl ds ef ac sh dh)
        = some (Value.str dh) := rfl
    simp only [ALLOWED_VALUES, first_invalid_categorical, l1, l2, l3, l4, valueInList]
    simp [hcd, hac, hsh, hdh]
  have hnum : first_non_numeric (mkUserRecord age bmi cd bps bsl ds ef ac sh dh)
      NUMERIC_FIELDS = none := by
    have l1 : assocLookup "Age" (mkUserRecord age bmi cd bps bsl ds ef ac sh dh)
        = some age := rfl
    have l2 : assocLookup "BMI" (mkUserRecord age bmi cd bps bsl ds ef ac sh dh)
        = some bmi := rfl
    have l3 : assocLookup "Blood_Pressure_Systolic"
        (mkUserRecord age bmi cd bps bsl ds ef ac sh dh) = some bps := rfl
    have l4 : assocLookup "Blood_Sugar_Level"
        (mkUserRecord age bmi cd bps bsl ds ef ac sh dh) = some bsl := rfl
    have l5 : assocLookup "Daily_Steps" (mkUserRecord age bmi cd bps bsl ds ef ac sh dh)
        = some ds := rfl
    have l6 : assocLookup "Exercise_Frequency"
        (mkUserRecord age bmi cd bps bsl ds ef ac sh dh) = some ef := rfl
    simp only [NUMERIC_FIELDS, first_non_numeric, l1, l2, l3, l4, l5, l6]
    simp [h1, h2, h3, h4, h5, h6]
  rw [validate_request, if_neg hne, if_neg (by simp [hmiss]), if_neg (by simp [hextra]),
    hcat, hnum]

/-- Witness for C10: a full record whose Age, BMI and systolic pressure are
the strings nan, inf and -inf validates as Ok. -/
theorem nonfinite_numeric_strings_validate_ok_witness :
    py_float_ok (Value.str "nan") = true ∧
    validate_request (mkUserRecord (Value.str "nan") (Value.str "inf") "None"
        (Value.str "-inf") (Value.num 120) (Value.num 8000) (Value.num 3)
        "No" "No" "Regular")
      = ValidationResult.ok :=
  ⟨rfl,
   nonfinite_numeric_strings_validate_ok.2.2.2 "None" "No" "No" "Regular"
     (Value.str "nan") (Value.str "inf") (Value.str "-inf") (Value.num 120)
     (Value.num 8000) (Value.num 3)
     (by decide) (by decide) (by decide) (by decide)
     rfl rfl rfl rfl rfl rfl⟩
